import Mathlib

/-!
Shallow embedding of the MPFB logging subsystem
(src/mpfb/services/logservice.py): the `Logger` channel class, the internal
registry class `_LogService`, and the public static facade `LogService`.
Files are modeled as the list of lines appended since their last
truncation, standard output as a list of printed lines, and Python
dictionaries as insertion-ordered association lists.
-/

/-- A Python dictionary lookup (`d[k]`, and `k in d` via `Option.isSome`)
over an insertion-ordered association list. -/
def dictGet {α : Type} : List (String × α) → String → Option α
  | [], _ => none
  | (k, v) :: rest, key => if k = key then some v else dictGet rest key

/-- A Python dictionary update `d[k] = v`: replaces the value in place when
the key exists, otherwise appends the new binding at the end. -/
def dictSet {α : Type} : List (String × α) → String → α → List (String × α)
  | [], key, v => [(key, v)]
  | (k, w) :: rest, key, v =>
    if k = key then (k, v) :: rest else (k, w) :: dictSet rest key v

/-- A Python value as far as the logging subsystem observes it: a string,
an integer, or some other object characterized by its `str()` rendering and
its `pprint.pformat` rendering. -/
inductive PyVal where
  | pstr (s : String)
  | pint (n : Int)
  | pother (str_repr : String) (pformat_repr : String)
deriving DecidableEq, Repr

/-- Python `str(x)`. -/
def str_coerce : PyVal → String
  | .pstr s => s
  | .pint n => toString n
  | .pother r _ => r

/-- Python `pprint.pformat(x, 4, 180, depth=5)`: an integer renders as its
decimal form, any other non-string object carries its own rendering.
(`Logger.dump` never applies this to a string; that branch is unreachable
from the embedded code.) -/
def pformat : PyVal → String
  | .pstr s => s
  | .pint n => toString n
  | .pother _ pf => pf

/-- The module-level constant `_JUSTIFICATION = 40`. -/
def JUSTIFICATION : Nat := 40

/-- Python `str.ljust(width, fill)`: pad on the right with `fill` up to
`width` characters. -/
def pyLjust (s : String) (width : Nat) (fill : Char) : String :=
  s ++ String.mk (List.replicate (width - s.length) fill)

/-- `LogService.LOGLEVELS`, the labels used in formatted output, indexed by
severity value. -/
def LogService.LOGLEVELS : List String :=
  ["CRASH", "ERROR", "WARN ", "INFO ", "DEBUG", "TRACE", "DUMP "]

/-- Severity constant `LogService.CRASH`. -/
def LogService.CRASH : Nat := 0

/-- Severity constant `LogService.ERROR`. -/
def LogService.ERROR : Nat := 1

/-- Severity constant `LogService.WARN`. -/
def LogService.WARN : Nat := 2

/-- Severity constant `LogService.INFO`. -/
def LogService.INFO : Nat := 3

/-- Severity constant `LogService.DEBUG`. -/
def LogService.DEBUG : Nat := 4

/-- Severity constant `LogService.TRACE`. -/
def LogService.TRACE : Nat := 5

/-- Severity constant `LogService.DUMP`. -/
def LogService.DUMP : Nat := 6

/-- A log channel.  The private output file is modeled by the list of lines
appended to it since its truncation at construction time; `path` is stored
relative to the log directory `_LOGDIR`, which the environment fixes once
at startup and prefixes uniformly through `os.path.join`.  The timer field
`time_stamp`, used only by the wall-clock helpers, is omitted. -/
structure Logger where
  name : String
  level : Int
  level_is_overridden : Bool
  path : String
  file : List String
deriving DecidableEq, Repr

/-- `Logger.__init__`: store the name and level, clear the overridden flag,
derive the private path from the name, and truncate the private file. -/
def Logger.init (name : String) (level : Int) : Logger :=
  { name := name
    level := level
    level_is_overridden := false
    path := "separated." ++ name ++ ".txt"
    file := [] }

/-- `Logger._log_message`: when the message severity does not exceed the
channel threshold, build the long and short lines, print the long line,
append the short line to the private file and the long line to the combined
file; otherwise do nothing.  Returns the updated logger together with the
combined file and standard output. -/
def Logger.log_message (lg : Logger) (combined printed : List String)
    (level : Nat) (message : String) (extra_object : Option PyVal) :
    Logger × List String × List String :=
  if (level : Int) ≤ lg.level then
    let extra := match extra_object with
      | none => ""
      | some obj => " " ++ str_coerce obj
    let location := pyLjust (lg.name ++ " ") JUSTIFICATION '.' ++ ": "
    let long_message :=
      "[" ++ LogService.LOGLEVELS.getD level "" ++ "] " ++ location ++ message ++ extra
    let short_message :=
      "[" ++ LogService.LOGLEVELS.getD level "" ++ "] " ++ message ++ extra
    ({ lg with file := lg.file ++ [short_message] },
      combined ++ [long_message],
      printed ++ [long_message])
  else
    (lg, combined, printed)

/-- `Logger.set_level`: set the threshold and mark it overridden. -/
def Logger.set_level (lg : Logger) (level : Int) : Logger :=
  { lg with level := level, level_is_overridden := true }

/-- `Logger.get_level`. -/
def Logger.get_level (lg : Logger) : Int :=
  lg.level

/-- `Logger.crash`. -/
def Logger.crash (lg : Logger) (combined printed : List String)
    (message : String) (extra_object : Option PyVal) :
    Logger × List String × List String :=
  lg.log_message combined printed LogService.CRASH message extra_object

/-- `Logger.error`. -/
def Logger.error (lg : Logger) (combined printed : List String)
    (message : String) (extra_object : Option PyVal) :
    Logger × List String × List String :=
  lg.log_message combined printed LogService.ERROR message extra_object

/-- `Logger.warn`. -/
def Logger.warn (lg : Logger) (combined printed : List String)
    (message : String) (extra_object : Option PyVal) :
    Logger × List String × List String :=
  lg.log_message combined printed LogService.WARN message extra_object

/-- `Logger.info`. -/
def Logger.info (lg : Logger) (combined printed : List String)
    (message : String) (extra_object : Option PyVal) :
    Logger × List String × List String :=
  lg.log_message combined printed LogService.INFO message extra_object

/-- `Logger.debug`. -/
def Logger.debug (lg : Logger) (combined printed : List String)
    (message : String) (extra_object : Option PyVal) :
    Logger × List String × List String :=
  lg.log_message combined printed LogService.DEBUG message extra_object

/-- `Logger.trace`. -/
def Logger.trace (lg : Logger) (combined printed : List String)
    (message : String) (extra_object : Option PyVal) :
    Logger × List String × List String :=
  lg.log_message combined printed LogService.TRACE message extra_object

/-- `Logger.dump`: only when the threshold strictly exceeds TRACE,
serialize the value (a string directly, any other value through
`pformat`), prefix a newline, and emit at DUMP severity. -/
def Logger.dump (lg : Logger) (combined printed : List String)
    (message : String) (extra_object : PyVal) :
    Logger × List String × List String :=
  if lg.level > (LogService.TRACE : Int) then
    let serialized_object := match extra_object with
      | .pstr s => "\n" ++ s
      | v => "\n" ++ pformat v
    lg.log_message combined printed LogService.DUMP message
      (some (.pstr serialized_object))
  else
    (lg, combined, printed)

/-- The internal registry class `_LogService`.  `config_file` is the JSON
object currently on disk in `log_levels.json`; `combined_file` is the
shared combined log file; `stdout_lines` is standard output. -/
structure _LogService where
  loggers : List (String × Logger)
  default_log_level : Int
  level_overrides : List (String × Int)
  config_file : List (String × Int)
  combined_file : List String
  stdout_lines : List String
deriving DecidableEq, Repr

/-- `_LogService.rewrite_json`: print a notice and overwrite the
configuration file with the current overrides table.  (The printed notice
carries the file name; the directory prefix is environment-determined.) -/
def _LogService.rewrite_json (st : _LogService) : _LogService :=
  { st with
    stdout_lines := st.stdout_lines ++ ["Will rewrite log config log_levels.json"]
    config_file := st.level_overrides }

/-- `_LogService.__init__`, as a function of the configuration file found
on disk (`none` when the file does not exist): start with an empty logger
table and an INFO default, load the overrides from the file when present
(taking the default from its reserved key when that key exists), otherwise
print a notice and write the empty template; finally truncate the shared
combined file. -/
def _LogService.init (config : Option (List (String × Int))) : _LogService :=
  let st : _LogService :=
    { loggers := []
      default_log_level := (LogService.INFO : Int)
      level_overrides := [("default", (LogService.INFO : Int))]
      config_file := []
      combined_file := []
      stdout_lines := [] }
  let st :=
    match config with
    | some cfg =>
      let st := { st with level_overrides := cfg, config_file := cfg }
      match dictGet cfg "default" with
      | some d => { st with default_log_level := d }
      | none => st
    | none =>
      let st := { st with stdout_lines :=
        st.stdout_lines ++ ["Log config does not exist. Creating empty template."] }
      st.rewrite_json
  { st with combined_file := [] }

/-- `_LogService.get_or_create_log_channel`: look the name up, on a miss
create a channel at the default level and immediately apply any stored
override; return the channel together with the updated registry. -/
def _LogService.get_or_create_log_channel (st : _LogService) (name : String) :
    Logger × _LogService :=
  match dictGet st.loggers name with
  | some lg => (lg, st)
  | none =>
    let lg := Logger.init name st.default_log_level
    let lg :=
      match dictGet st.level_overrides name with
      | some lvl => lg.set_level lvl
      | none => lg
    (lg, { st with loggers := dictSet st.loggers name lg })

/-- Loop body of `_LogService.set_default_log_level`: an existing channel
keeps its threshold when its override flag is set, otherwise the new
default is written into it (the flag itself is not touched). -/
def apply_default_level (level : Int) (p : String × Logger) : String × Logger :=
  (p.1, if p.2.level_is_overridden then p.2 else { p.2 with level := level })

/-- `_LogService.set_default_log_level`: record the new default, mirror it
under the reserved key of the overrides table, push it into every
non-overridden channel, and persist. -/
def _LogService.set_default_log_level (st : _LogService) (level : Int) :
    _LogService :=
  let st := { st with
    default_log_level := level
    level_overrides := dictSet st.level_overrides "default" level
    loggers := st.loggers.map (apply_default_level level) }
  st.rewrite_json

/-- `_LogService.set_level_override`: obtain or create the channel, record
the override, set the channel threshold (marking it overridden), and
persist. -/
def _LogService.set_level_override (st : _LogService) (logger_name : String)
    (level : Int) : _LogService :=
  let res := st.get_or_create_log_channel logger_name
  let st := { res.2 with
    level_overrides := dictSet res.2.level_overrides logger_name level }
  let st := { st with
    loggers := dictSet st.loggers logger_name (res.1.set_level level) }
  st.rewrite_json

/-- Loop body of `_LogService.reset_log_levels`: every existing channel is
put back at INFO with its override flag cleared. -/
def reset_logger (p : String × Logger) : String × Logger :=
  (p.1, { p.2 with level := (LogService.INFO : Int), level_is_overridden := false })

/-- `_LogService.reset_log_levels`: restore the INFO default, replace the
overrides table by the template containing only the reserved key, persist,
and reset every existing channel. -/
def _LogService.reset_log_levels (st : _LogService) : _LogService :=
  let st := { st with
    default_log_level := (LogService.INFO : Int)
    level_overrides := [("default", (LogService.INFO : Int))] }
  let st := st.rewrite_json
  { st with loggers := st.loggers.map reset_logger }

/-- Lexicographic code-point comparison on character lists, the order used
by Python string comparison. -/
def charListLe : List Char → List Char → Bool
  | [], _ => true
  | _ :: _, [] => false
  | a :: as, b :: bs =>
    if a = b then charListLe as bs else decide (a.toNat < b.toNat)

/-- Python string comparison `a <= b`: lexicographic by code points. -/
def pyStrLe (a b : String) : Bool :=
  charListLe a.data b.data

/-- Insertion step for the model of Python `list.sort()` on strings. -/
def insertSorted (x : String) : List String → List String
  | [] => [x]
  | y :: ys => if pyStrLe x y then x :: y :: ys else y :: insertSorted x ys

/-- Python `list.sort()` on strings: stable lexicographic sort, modeled by
insertion sort. -/
def pySort : List String → List String
  | [] => []
  | x :: xs => insertSorted x (pySort xs)

/-- Loop body of `_LogService.get_loggers_categories_as_property_enum`:
derive the category of a channel name — the whole name when it contains no
dot, otherwise the part before the first dot, the first component of
Python `name.split(".", 1)` — and append a new enum entry the first time a
category is seen. -/
def categoriesLoop
    (acc : List (String × String × String × Nat) × Nat × List String)
    (name : String) :
    List (String × String × String × Nat) × Nat × List String :=
  let (categories, current, category_names) := acc
  let cat := if !(name.data.contains '.') then name
             else String.mk (name.data.takeWhile (fun c => c != '.'))
  if category_names.contains cat then
    (categories, current, category_names)
  else
    (categories ++ [(cat, cat, cat, current)], current + 1, category_names ++ [cat])

/-- `_LogService.get_loggers_categories_as_property_enum`: the synthetic
no-filter entry first, then one entry per category of the lexicographically
sorted channel names, in first-seen order. -/
def _LogService.get_loggers_categories_as_property_enum (st : _LogService) :
    List (String × String × String × Nat) :=
  let logger_names := pySort (st.loggers.map Prod.fst)
  (logger_names.foldl categoriesLoop
    ([("ALL", "(no filter)", "Do not filter: show all loggers", 0)], 1, [])).1

/-- `LogService.__init__`: the public facade class must not be instanced
and unconditionally raises `RuntimeError`. -/
def LogService.init : Except String Unit :=
  Except.error "You should not instance LogService. Use its static methods instead."

/-- The module-level construction `_LOGSERVICE = _LogService()`: the
internal `__init__` contains no raise, so construction always succeeds with
the built state. -/
def _LogService.init_result (config : Option (List (String × Int))) :
    Except String _LogService :=
  Except.ok (_LogService.init config)

/-- `LogService.get_logger`: string-coerce the argument and delegate to the
registry singleton. -/
def LogService.get_logger (st : _LogService) (name : PyVal) :
    Logger × _LogService :=
  st.get_or_create_log_channel (str_coerce name)

/-- One registry-mutating call, for round-trip sequences. -/
inductive RegOp where
  | setOverride (name : String) (level : Int)
  | setDefault (level : Int)
deriving DecidableEq, Repr

/-- Apply one registry-mutating call. -/
def _LogService.applyOp (st : _LogService) : RegOp → _LogService
  | .setOverride n L => st.set_level_override n L
  | .setDefault L => st.set_default_log_level L

/-- Apply a sequence of registry-mutating calls in order. -/
def _LogService.applyOps (st : _LogService) (ops : List RegOp) : _LogService :=
  ops.foldl _LogService.applyOp st

/-- No call in the sequence overrides the reserved channel name. -/
def opsOK (ops : List RegOp) : Bool :=
  ops.all fun op =>
    match op with
    | .setOverride n _ => !(n == "default")
    | .setDefault _ => true

/-- Key coherence of reachable registries: each stored channel carries the
name it is stored under and the path derived from that name. -/
def coherent (st : _LogService) : Prop :=
  ∀ m lg, dictGet st.loggers m = some lg →
    lg.name = m ∧ lg.path = "separated." ++ m ++ ".txt"

/-- The registry invariant of C7: every name present in the overrides
table other than the reserved key refers, once the channel exists, to a
channel whose override flag is set. -/
def overridesInv (st : _LogService) : Prop :=
  ∀ k, k ≠ "default" → (dictGet st.level_overrides k).isSome = true →
    ∀ lg, dictGet st.loggers k = some lg → lg.level_is_overridden = true

/-- States reachable by override and default-setting calls from a fresh
registry: the reserved key mirrors the default, the configuration file is
in sync with the overrides table, no channel is stored under the reserved
name, and every overridden channel has its current level recorded in the
overrides table. -/
def roundtripInv (st : _LogService) : Prop :=
  dictGet st.level_overrides "default" = some st.default_log_level ∧
  st.config_file = st.level_overrides ∧
  dictGet st.loggers "default" = none ∧
  ∀ n lg, dictGet st.loggers n = some lg → lg.level_is_overridden = true →
    dictGet st.level_overrides n = some lg.level

/-! ### Dictionary lemmas -/

/-- Looking up the key just written returns the written value. -/
theorem dictGet_dictSet_self {α : Type} (l : List (String × α)) (k : String) (v : α) :
    dictGet (dictSet l k v) k = some v := by
  induction l with
  | nil => simp [dictSet, dictGet]
  | cons p rest ih =>
    obtain ⟨k1, v1⟩ := p
    by_cases h : k1 = k
    · simp [dictSet, dictGet, h]
    · simp [dictSet, dictGet, h, ih]

/-- Writing one key leaves every other key unchanged. -/
theorem dictGet_dictSet_ne {α : Type} (l : List (String × α)) (k k' : String) (v : α)
    (h : k' ≠ k) : dictGet (dictSet l k v) k' = dictGet l k' := by
  induction l with
  | nil => simp [dictSet, dictGet, Ne.symm h]
  | cons p rest ih =>
    obtain ⟨k1, v1⟩ := p
    by_cases h1 : k1 = k
    · subst h1
      simp [dictSet, dictGet, Ne.symm h]
    · simp [dictSet, dictGet, h1, ih]

/-- Lookup after the bulk-default loop of `set_default_log_level`. -/
theorem dictGet_map_applyDefault (L : Int) (l : List (String × Logger)) (k : String) :
    dictGet (l.map (apply_default_level L)) k =
      (dictGet l k).map fun lg =>
        if lg.level_is_overridden then lg else { lg with level := L } := by
  induction l with
  | nil => simp [dictGet]
  | cons p rest ih =>
    obtain ⟨k1, v1⟩ := p
    by_cases h : k1 = k
    · simp [apply_default_level, dictGet, h]
    · simp [apply_default_level, dictGet, h, ih]

/-- Lookup after the reset loop of `reset_log_levels`. -/
theorem dictGet_map_reset (l : List (String × Logger)) (k : String) :
    dictGet (l.map reset_logger) k =
      (dictGet l k).map fun lg =>
        { lg with level := (LogService.INFO : Int), level_is_overridden := false } := by
  induction l with
  | nil => simp [dictGet]
  | cons p rest ih =>
    obtain ⟨k1, v1⟩ := p
    by_cases h : k1 = k
    · simp [reset_logger, dictGet, h]
    · simp [reset_logger, dictGet, h, ih]

/-! ### Channel-creation lemmas -/

/-- After `get_or_create_log_channel`, the registry holds the returned
channel under the requested name. -/
theorem gocl_loggers_self (st : _LogService) (n : String) :
    dictGet ((st.get_or_create_log_channel n).2).loggers n =
      some (st.get_or_create_log_channel n).1 := by
  cases h : dictGet st.loggers n with
  | some lg => simp [_LogService.get_or_create_log_channel, h]
  | none => simp [_LogService.get_or_create_log_channel, h, dictGet_dictSet_self]

/-- A second `get_or_create_log_channel` with the same name returns the
same channel and leaves the registry unchanged. -/
theorem gocl_idem (st : _LogService) (n : String) :
    ((st.get_or_create_log_channel n).2).get_or_create_log_channel n =
      ((st.get_or_create_log_channel n).1, (st.get_or_create_log_channel n).2) := by
  cases h : dictGet st.loggers n with
  | some lg => simp [_LogService.get_or_create_log_channel, h]
  | none => simp [_LogService.get_or_create_log_channel, h, dictGet_dictSet_self]

/-- `get_or_create_log_channel` does not touch any other name. -/
theorem gocl_loggers_other (st : _LogService) (n m : String) (h : m ≠ n) :
    dictGet ((st.get_or_create_log_channel n).2).loggers m = dictGet st.loggers m := by
  cases hn : dictGet st.loggers n with
  | some lg => simp [_LogService.get_or_create_log_channel, hn]
  | none => simp [_LogService.get_or_create_log_channel, hn, dictGet_dictSet_ne _ _ _ _ h]

/-- `get_or_create_log_channel` does not change the default level. -/
theorem gocl_default (st : _LogService) (n : String) :
    ((st.get_or_create_log_channel n).2).default_log_level = st.default_log_level := by
  cases hn : dictGet st.loggers n <;>
    simp [_LogService.get_or_create_log_channel, hn]

/-- `get_or_create_log_channel` does not change the overrides table. -/
theorem gocl_overrides (st : _LogService) (n : String) :
    ((st.get_or_create_log_channel n).2).level_overrides = st.level_overrides := by
  cases hn : dictGet st.loggers n <;>
    simp [_LogService.get_or_create_log_channel, hn]

/-! ### Claim C1 -/

/-- C1: for every severity s in 0..6, a message emitted at severity s on a
channel with threshold t is recorded — a short line appended to the private
file and a long line appended to the shared combined file — exactly when
s is at most t; when s exceeds t, both files and standard output are left
untouched. -/
theorem claim_C1_severity_filter (lg : Logger) (combined printed : List String)
    (s : Nat) (hs : s ≤ 6) (message : String) (extra_object : Option PyVal) :
    (((s : Int) ≤ lg.level) ↔
      (∃ line, ((lg.log_message combined printed s message extra_object).1).file
          = lg.file ++ [line]) ∧
      (∃ line, (lg.log_message combined printed s message extra_object).2.1
          = combined ++ [line])) ∧
    (¬ ((s : Int) ≤ lg.level) →
      lg.log_message combined printed s message extra_object
        = (lg, combined, printed)) := by
  by_cases h : (s : Int) ≤ lg.level
  · simp only [Logger.log_message, if_pos h]
    refine ⟨⟨fun _ => ⟨⟨_, rfl⟩, ⟨_, rfl⟩⟩, fun _ => h⟩, fun hc => absurd h hc⟩
  · simp only [Logger.log_message, if_neg h]
    refine ⟨⟨fun hc => absurd hc h, fun ⟨⟨l1, h1⟩, _⟩ => ?_⟩, fun _ => trivial⟩
    exact absurd h1 (by simp)

/-- Witness for C1 at a concrete channel of threshold 3 and severity 2. -/
theorem claim_C1_severity_filter_witness :
    (2 : Nat) ≤ 6 ∧
    ((((2 : Nat) : Int) ≤ (Logger.init "test" 3).level) ↔
      (∃ line, (((Logger.init "test" 3).log_message [] [] 2 "x" none).1).file
          = (Logger.init "test" 3).file ++ [line]) ∧
      (∃ line, ((Logger.init "test" 3).log_message [] [] 2 "x" none).2.1
          = [] ++ [line])) ∧
    (¬ (((2 : Nat) : Int) ≤ (Logger.init "test" 3).level) →
      (Logger.init "test" 3).log_message [] [] 2 "x" none
        = (Logger.init "test" 3, [], [])) :=
  ⟨by decide, claim_C1_severity_filter (Logger.init "test" 3) [] [] 2 (by decide) "x" none⟩

/-! ### Claim C2 -/

/-- C2: after `set_level_override n L` the channel n has threshold L with
its override flag set, and a subsequent `set_default_log_level L2` moves
every channel whose flag is unset to L2 while channel n keeps threshold
L. -/
theorem claim_C2_override_survives_default (st : _LogService) (n : String) (L L2 : Int) :
    (∃ lg, dictGet (st.set_level_override n L).loggers n = some lg ∧
      lg.level = L ∧ lg.level_is_overridden = true) ∧
    (∃ lg, dictGet ((st.set_level_override n L).set_default_log_level L2).loggers n
        = some lg ∧ lg.level = L) ∧
    (∀ m lg, dictGet (st.set_level_override n L).loggers m = some lg →
      lg.level_is_overridden = false →
      ∃ lg2, dictGet ((st.set_level_override n L).set_default_log_level L2).loggers m
          = some lg2 ∧ lg2.level = L2) := by
  have h1 : dictGet (st.set_level_override n L).loggers n
      = some ((st.get_or_create_log_channel n).1.set_level L) := by
    simp [_LogService.set_level_override, _LogService.rewrite_json, dictGet_dictSet_self]
  have hmap : ∀ m, dictGet ((st.set_level_override n L).set_default_log_level L2).loggers m
      = (dictGet (st.set_level_override n L).loggers m).map fun lg =>
          if lg.level_is_overridden then lg else { lg with level := L2 } := by
    intro m
    exact dictGet_map_applyDefault L2 _ m
  refine ⟨⟨_, h1, rfl, rfl⟩, ?_, ?_⟩
  · refine ⟨(st.get_or_create_log_channel n).1.set_level L, ?_, rfl⟩
    rw [hmap, h1]
    simp [Logger.set_level]
  · intro m lg hm hflag
    refine ⟨{ lg with level := L2 }, ?_, rfl⟩
    rw [hmap, hm]
    simp [hflag]

/-- Witness for C2 on a freshly initialized registry with the scenario
override("net", 5) then default(1). -/
theorem claim_C2_override_survives_default_witness :
    (∃ lg, dictGet ((_LogService.init none).set_level_override "net" 5).loggers "net"
        = some lg ∧ lg.level = 5 ∧ lg.level_is_overridden = true) ∧
    (∃ lg, dictGet (((_LogService.init none).set_level_override "net" 5).set_default_log_level 1).loggers "net"
        = some lg ∧ lg.level = 5) ∧
    (∀ m lg, dictGet ((_LogService.init none).set_level_override "net" 5).loggers m = some lg →
      lg.level_is_overridden = false →
      ∃ lg2, dictGet (((_LogService.init none).set_level_override "net" 5).set_default_log_level 1).loggers m
          = some lg2 ∧ lg2.level = 1) :=
  claim_C2_override_survives_default (_LogService.init none) "net" 5 1

/-! ### Claim C5 -/

/-- C5: after `reset_log_levels`, in any registry state, the default level
is INFO, the overrides table and the persisted configuration file hold
exactly the reserved key at INFO, the set of existing channels is
unchanged, and every existing channel sits at INFO with its override flag
cleared. -/
theorem claim_C5_reset_log_levels (st : _LogService) :
    (st.reset_log_levels).default_log_level = 3 ∧
    (st.reset_log_levels).level_overrides = [("default", 3)] ∧
    (st.reset_log_levels).config_file = [("default", 3)] ∧
    (∀ n, (dictGet (st.reset_log_levels).loggers n).isSome
        = (dictGet st.loggers n).isSome) ∧
    (∀ n lg, dictGet (st.reset_log_levels).loggers n = some lg →
      lg.level = 3 ∧ lg.level_is_overridden = false) := by
  have hmap : ∀ n, dictGet (st.reset_log_levels).loggers n
      = (dictGet st.loggers n).map fun lg =>
          { lg with level := (LogService.INFO : Int), level_is_overridden := false } := by
    intro n
    exact dictGet_map_reset st.loggers n
  refine ⟨rfl, rfl, rfl, ?_, ?_⟩
  · intro n
    rw [hmap]
    cases dictGet st.loggers n <;> rfl
  · intro n lg hm
    rw [hmap] at hm
    obtain ⟨lg0, _, rfl⟩ := Option.map_eq_some'.mp hm
    exact ⟨rfl, rfl⟩

/-- Witness for C5 on a registry holding one overridden channel. -/
theorem claim_C5_reset_log_levels_witness :
    ((((_LogService.init none).set_level_override "net" 5).reset_log_levels).default_log_level = 3 ∧
    (((_LogService.init none).set_level_override "net" 5).reset_log_levels).level_overrides = [("default", 3)] ∧
    (((_LogService.init none).set_level_override "net" 5).reset_log_levels).config_file = [("default", 3)] ∧
    (∀ n, (dictGet (((_LogService.init none).set_level_override "net" 5).reset_log_levels).loggers n).isSome
        = (dictGet ((_LogService.init none).set_level_override "net" 5).loggers n).isSome) ∧
    (∀ n lg, dictGet (((_LogService.init none).set_level_override "net" 5).reset_log_levels).loggers n = some lg →
      lg.level = 3 ∧ lg.level_is_overridden = false)) :=
  claim_C5_reset_log_levels ((_LogService.init none).set_level_override "net" 5)

/-! ### Claim C4 -/

/-- The map from channel name to private file path is injective. -/
theorem sep_path_inj (a b : String)
    (h : "separated." ++ a ++ ".txt" = "separated." ++ b ++ ".txt") : a = b := by
  have hd := congrArg String.data h
  simp only [String.data_append] at hd
  exact String.ext (List.append_cancel_left (List.append_cancel_right hd))

/-- The channel returned by `get_or_create_log_channel` carries the
requested name and the path derived from it. -/
theorem gocl_fst_fields (st : _LogService) (n : String) (hco : coherent st) :
    ((st.get_or_create_log_channel n).1).name = n ∧
    ((st.get_or_create_log_channel n).1).path = "separated." ++ n ++ ".txt" := by
  cases hn : dictGet st.loggers n with
  | some lg =>
    have hl := hco n lg hn
    simp [_LogService.get_or_create_log_channel, hn, hl.1, hl.2]
  | none =>
    cases ho : dictGet st.level_overrides n <;>
      simp [_LogService.get_or_create_log_channel, hn, ho, Logger.init, Logger.set_level]

/-- `get_or_create_log_channel` preserves key coherence. -/
theorem gocl_coherent (st : _LogService) (n : String) (hco : coherent st) :
    coherent (st.get_or_create_log_channel n).2 := by
  intro m lg hm
  by_cases hmn : m = n
  · subst hmn
    rw [gocl_loggers_self] at hm
    injection hm with h
    subst h
    exact gocl_fst_fields st m hco
  · rw [gocl_loggers_other st n m hmn] at hm
    exact hco m lg hm

/-- C4: `get_or_create_log_channel` is identity-stable — a repeated call
with the same name returns the same channel and leaves the registry
unchanged — and for two distinct names the returned channels are distinct,
have distinct private file paths, and have independently settable
thresholds: overriding the level of one leaves the entry of the other
untouched, in both directions. -/
theorem claim_C4_identity_stable_distinct (st : _LogService)
    (hco : ∀ m lg, dictGet st.loggers m = some lg →
      lg.name = m ∧ lg.path = "separated." ++ m ++ ".txt")
    (n n1 n2 : String) (hne : n1 ≠ n2) (L : Int) :
    let r1 := st.get_or_create_log_channel n1
    let r2 := (r1.2).get_or_create_log_channel n2
    ((st.get_or_create_log_channel n).2).get_or_create_log_channel n
        = ((st.get_or_create_log_channel n).1, (st.get_or_create_log_channel n).2) ∧
    r1.1 ≠ r2.1 ∧
    (r1.1).path ≠ (r2.1).path ∧
    dictGet ((r2.2.set_level_override n1 L).loggers) n2 = dictGet (r2.2.loggers) n2 ∧
    dictGet ((r2.2.set_level_override n2 L).loggers) n1 = dictGet (r2.2.loggers) n1 := by
  intro r1 r2
  have h1 := gocl_fst_fields st n1 hco
  have hco1 : coherent (st.get_or_create_log_channel n1).2 := gocl_coherent st n1 hco
  have h2 := gocl_fst_fields (st.get_or_create_log_channel n1).2 n2 hco1
  refine ⟨gocl_idem st n, ?_, ?_, ?_, ?_⟩
  · intro heq
    apply hne
    rw [← h1.1, ← h2.1, heq]
  · intro heq
    apply hne
    apply sep_path_inj
    rw [← h1.2, ← h2.2, heq]
  · show dictGet ((r2.2.set_level_override n1 L).loggers) n2 = dictGet (r2.2.loggers) n2
    simp only [_LogService.set_level_override, _LogService.rewrite_json]
    rw [dictGet_dictSet_ne _ _ _ _ (Ne.symm hne)]
    exact gocl_loggers_other r2.2 n1 n2 (Ne.symm hne)
  · show dictGet ((r2.2.set_level_override n2 L).loggers) n1 = dictGet (r2.2.loggers) n1
    simp only [_LogService.set_level_override, _LogService.rewrite_json]
    rw [dictGet_dictSet_ne _ _ _ _ hne]
    exact gocl_loggers_other r2.2 n2 n1 hne

/-- Witness for C4 on a freshly initialized registry with names "x" and
"y". -/
theorem claim_C4_identity_stable_distinct_witness :
    (∀ m lg, dictGet (_LogService.init none).loggers m = some lg →
      lg.name = m ∧ lg.path = "separated." ++ m ++ ".txt") ∧
    (let r1 := (_LogService.init none).get_or_create_log_channel "x"
     let r2 := (r1.2).get_or_create_log_channel "y"
     (((_LogService.init none).get_or_create_log_channel "a").2).get_or_create_log_channel "a"
        = (((_LogService.init none).get_or_create_log_channel "a").1,
           ((_LogService.init none).get_or_create_log_channel "a").2) ∧
     r1.1 ≠ r2.1 ∧
     (r1.1).path ≠ (r2.1).path ∧
     dictGet ((r2.2.set_level_override "x" 2).loggers) "y" = dictGet (r2.2.loggers) "y" ∧
     dictGet ((r2.2.set_level_override "y" 2).loggers) "x" = dictGet (r2.2.loggers) "x") := by
  have hco : ∀ m lg, dictGet (_LogService.init none).loggers m = some lg →
      lg.name = m ∧ lg.path = "separated." ++ m ++ ".txt" := by
    intro m lg hm
    simp [_LogService.init, _LogService.rewrite_json, dictGet] at hm
  exact ⟨hco, claim_C4_identity_stable_distinct (_LogService.init none) hco
    "a" "x" "y" (by decide) 2⟩

/-! ### Claim C6 -/

/-- C6: `dump` emits a DUMP-severity record exactly when the channel
threshold strictly exceeds TRACE (5); when it emits, a non-string value is
recorded serialized through `pformat` and prefixed with a newline; when
the threshold is at most TRACE, nothing at all is written or printed. -/
theorem claim_C6_dump_emits_above_trace (lg : Logger) (combined printed : List String)
    (message : String) (v : PyVal) :
    (((5 : Int) < lg.level) ↔
      (∃ line, ((lg.dump combined printed message v).1).file = lg.file ++ [line]) ∧
      (∃ line, (lg.dump combined printed message v).2.1 = combined ++ [line])) ∧
    (((5 : Int) < lg.level) → (∀ s, v ≠ PyVal.pstr s) →
      ((lg.dump combined printed message v).1).file
        = lg.file ++ ["[DUMP ] " ++ message ++ " " ++ "\n" ++ pformat v]) ∧
    (lg.level ≤ (5 : Int) → lg.dump combined printed message v = (lg, combined, printed)) := by
  by_cases h : (5 : Int) < lg.level
  · have hgt : lg.level > ((LogService.TRACE : Nat) : Int) := by
      simpa [LogService.TRACE] using h
    have h6 : ((LogService.DUMP : Nat) : Int) ≤ lg.level := by
      simp only [LogService.DUMP]
      omega
    refine ⟨⟨fun _ => ?_, fun _ => h⟩, fun _ hnp => ?_, fun hle => absurd h (by omega)⟩
    · unfold Logger.dump
      rw [if_pos hgt]
      unfold Logger.log_message
      rw [if_pos h6]
      exact ⟨⟨_, rfl⟩, ⟨_, rfl⟩⟩
    · cases v with
      | pstr s => exact absurd rfl (hnp s)
      | pint n =>
        unfold Logger.dump
        rw [if_pos hgt]
        unfold Logger.log_message
        rw [if_pos h6]
        have hfold : ∀ x : String, " " ++ ("\n" ++ x) = " \n" ++ x := by
          intro x
          rw [← String.append_assoc]
          exact congrArg (fun s => s ++ x) (by decide)
        simp [str_coerce, pformat, LogService.LOGLEVELS, LogService.DUMP,
          String.append_assoc, hfold]
      | pother r pf =>
        unfold Logger.dump
        rw [if_pos hgt]
        unfold Logger.log_message
        rw [if_pos h6]
        have hfold : ∀ x : String, " " ++ ("\n" ++ x) = " \n" ++ x := by
          intro x
          rw [← String.append_assoc]
          exact congrArg (fun s => s ++ x) (by decide)
        simp [str_coerce, pformat, LogService.LOGLEVELS, LogService.DUMP,
          String.append_assoc, hfold]
  · have hgt : ¬ (lg.level > ((LogService.TRACE : Nat) : Int)) := by
      simpa [LogService.TRACE] using h
    unfold Logger.dump
    rw [if_neg hgt]
    refine ⟨⟨fun hc => absurd hc h, fun ⟨⟨l1, h1⟩, _⟩ => absurd h1 (by simp)⟩,
      fun hc _ => absurd hc h, fun _ => rfl⟩

/-- Witness for C6 at a channel of threshold 6 and a non-string value. -/
theorem claim_C6_dump_emits_above_trace_witness :
    (((5 : Int) < (Logger.init "test" 6).level) ↔
      (∃ line, (((Logger.init "test" 6).dump [] [] "m" (PyVal.pother "o" "PF")).1).file
          = (Logger.init "test" 6).file ++ [line]) ∧
      (∃ line, ((Logger.init "test" 6).dump [] [] "m" (PyVal.pother "o" "PF")).2.1
          = [] ++ [line])) ∧
    (((5 : Int) < (Logger.init "test" 6).level) →
      (∀ s, PyVal.pother "o" "PF" ≠ PyVal.pstr s) →
      (((Logger.init "test" 6).dump [] [] "m" (PyVal.pother "o" "PF")).1).file
        = (Logger.init "test" 6).file
            ++ ["[DUMP ] " ++ "m" ++ " " ++ "\n" ++ pformat (PyVal.pother "o" "PF")]) ∧
    ((Logger.init "test" 6).level ≤ (5 : Int) →
      (Logger.init "test" 6).dump [] [] "m" (PyVal.pother "o" "PF")
        = (Logger.init "test" 6, [], [])) :=
  claim_C6_dump_emits_above_trace (Logger.init "test" 6) [] [] "m" (PyVal.pother "o" "PF")

/-! ### Claim C7 -/

/-- C7: the registry invariant — every channel name in the overrides table
other than "default" refers to a channel that, once created, has its
override flag set — is preserved by `get_or_create_log_channel`,
`set_default_log_level`, `set_level_override` and `reset_log_levels`. -/
theorem claim_C7_overrides_invariant (st : _LogService) (hinv : overridesInv st)
    (n : String) (L : Int) :
    overridesInv (st.get_or_create_log_channel n).2 ∧
    overridesInv (st.set_default_log_level L) ∧
    overridesInv (st.set_level_override n L) ∧
    overridesInv st.reset_log_levels := by
  refine ⟨?_, ?_, ?_, ?_⟩
  · intro k hk hsome lg hlg
    rw [gocl_overrides] at hsome
    by_cases hkn : k = n
    · subst hkn
      rw [gocl_loggers_self] at hlg
      injection hlg with hlg
      subst hlg
      cases hn : dictGet st.loggers k with
      | some lg0 =>
        have : (st.get_or_create_log_channel k).1 = lg0 := by
          simp [_LogService.get_or_create_log_channel, hn]
        rw [this]
        exact hinv k hk hsome lg0 hn
      | none =>
        obtain ⟨lvl, ho⟩ := Option.isSome_iff_exists.mp hsome
        simp [_LogService.get_or_create_log_channel, hn, ho, Logger.set_level]
    · rw [gocl_loggers_other st n k hkn] at hlg
      exact hinv k hk hsome lg hlg
  · intro k hk hsome lg hlg
    simp only [_LogService.set_default_log_level, _LogService.rewrite_json] at hsome hlg
    rw [dictGet_dictSet_ne _ _ _ _ hk] at hsome
    rw [dictGet_map_applyDefault] at hlg
    obtain ⟨lg0, hlg0, hfl⟩ := Option.map_eq_some'.mp hlg
    have hov := hinv k hk hsome lg0 hlg0
    rw [hov] at hfl
    simp at hfl
    rw [← hfl]
    exact hov
  · intro k hk hsome lg hlg
    simp only [_LogService.set_level_override, _LogService.rewrite_json] at hsome hlg
    by_cases hkn : k = n
    · subst hkn
      rw [dictGet_dictSet_self] at hlg
      injection hlg with hlg
      subst hlg
      rfl
    · rw [dictGet_dictSet_ne _ _ _ _ hkn] at hsome hlg
      rw [gocl_overrides] at hsome
      rw [gocl_loggers_other st n k hkn] at hlg
      exact hinv k hk hsome lg hlg
  · intro k hk hsome lg hlg
    simp only [_LogService.reset_log_levels, _LogService.rewrite_json] at hsome
    simp [dictGet, Ne.symm hk] at hsome

/-- Witness for C7 on a freshly initialized registry. -/
theorem claim_C7_overrides_invariant_witness :
    overridesInv (_LogService.init none) ∧
    (overridesInv ((_LogService.init none).get_or_create_log_channel "net").2 ∧
     overridesInv ((_LogService.init none).set_default_log_level 5) ∧
     overridesInv ((_LogService.init none).set_level_override "net" 5) ∧
     overridesInv (_LogService.init none).reset_log_levels) := by
  have h0 : overridesInv (_LogService.init none) := by
    intro k hk hsome lg hlg
    simp [_LogService.init, _LogService.rewrite_json, dictGet] at hlg
  exact ⟨h0, claim_C7_overrides_invariant (_LogService.init none) h0 "net" 5⟩

/-! ### Claim C8 -/

/-- C8: on a registry holding exactly the channels "a.b", "a.c" and "z"
(created here in scrambled order), the category enum is the synthetic
no-filter entry followed by "a" and "z", so its names are exactly
["ALL", "a", "z"] in that order. -/
theorem claim_C8_categories_scenario :
    (let st := ((((_LogService.init none).get_or_create_log_channel "z").2.get_or_create_log_channel
        "a.c").2.get_or_create_log_channel "a.b").2
     st.get_loggers_categories_as_property_enum
       = [("ALL", "(no filter)", "Do not filter: show all loggers", 0),
          ("a", "a", "a", 1), ("z", "z", "z", 2)] ∧
     st.get_loggers_categories_as_property_enum.map (fun t => t.1)
       = ["ALL", "a", "z"]) :=
  ⟨by decide, by decide⟩

/-! ### Claim C9 -/

/-- C9: constructing the public facade class raises the usage RuntimeError,
while constructing the internal registry always succeeds, whatever
configuration file is found on disk. -/
theorem claim_C9_facade_not_instantiable :
    LogService.init
      = Except.error "You should not instance LogService. Use its static methods instead." ∧
    (∀ cfg, ∃ st, _LogService.init_result cfg = Except.ok st) :=
  ⟨rfl, fun cfg => ⟨_LogService.init cfg, rfl⟩⟩

/-! ### Claim C10 -/

/-- C10: `LogService.get_logger` string-coerces its argument before the
lookup, so it agrees with `get_or_create_log_channel` of the coerced
string, and two arguments with equal string form share one channel: the
second call returns the same channel and leaves the registry unchanged. -/
theorem claim_C10_get_logger_string_coercion (st : _LogService) (v1 v2 : PyVal)
    (h : str_coerce v1 = str_coerce v2) :
    LogService.get_logger st v1 = st.get_or_create_log_channel (str_coerce v1) ∧
    LogService.get_logger ((LogService.get_logger st v1).2) v2
      = ((LogService.get_logger st v1).1, (LogService.get_logger st v1).2) := by
  refine ⟨rfl, ?_⟩
  show ((st.get_or_create_log_channel (str_coerce v1)).2).get_or_create_log_channel
      (str_coerce v2) = _
  rw [← h]
  exact gocl_idem st (str_coerce v1)

/-- Witness for C10: the integer 1 and the string "1" share one channel on
a freshly initialized registry. -/
theorem claim_C10_get_logger_string_coercion_witness :
    str_coerce (PyVal.pint 1) = str_coerce (PyVal.pstr "1") ∧
    (LogService.get_logger (_LogService.init none) (PyVal.pint 1)
        = (_LogService.init none).get_or_create_log_channel (str_coerce (PyVal.pint 1)) ∧
     LogService.get_logger ((LogService.get_logger (_LogService.init none) (PyVal.pint 1)).2)
        (PyVal.pstr "1")
      = ((LogService.get_logger (_LogService.init none) (PyVal.pint 1)).1,
         (LogService.get_logger (_LogService.init none) (PyVal.pint 1)).2)) :=
  ⟨by decide, claim_C10_get_logger_string_coercion (_LogService.init none)
    (PyVal.pint 1) (PyVal.pstr "1") (by decide)⟩

/-! ### Claim C3 -/

/-- A freshly initialized registry satisfies the round-trip invariant. -/
theorem roundtripInv_init : roundtripInv (_LogService.init none) := by
  refine ⟨by decide, rfl, rfl, ?_⟩
  intro n lg hl
  simp [_LogService.init, _LogService.rewrite_json, dictGet] at hl

/-- `set_default_log_level` preserves the round-trip invariant. -/
theorem roundtripInv_set_default (st : _LogService) (L : Int)
    (h : roundtripInv st) : roundtripInv (st.set_default_log_level L) := by
  obtain ⟨ha, hb, hc, hd⟩ := h
  refine ⟨?_, rfl, ?_, ?_⟩
  · simp only [_LogService.set_default_log_level, _LogService.rewrite_json]
    exact dictGet_dictSet_self _ _ _
  · simp only [_LogService.set_default_log_level, _LogService.rewrite_json]
    rw [dictGet_map_applyDefault, hc]
    rfl
  · intro n lg hl hflag
    simp only [_LogService.set_default_log_level, _LogService.rewrite_json] at hl ⊢
    rw [dictGet_map_applyDefault] at hl
    obtain ⟨lg0, hlg0, hf⟩ := Option.map_eq_some'.mp hl
    have hnd : n ≠ "default" := by
      intro e
      subst e
      rw [hc] at hlg0
      exact Option.noConfusion hlg0
    by_cases hov : lg0.level_is_overridden = true
    · rw [if_pos hov] at hf
      subst hf
      rw [dictGet_dictSet_ne _ _ _ _ hnd]
      exact hd n lg0 hlg0 hov
    · rw [if_neg hov] at hf
      subst hf
      exact absurd hflag hov

/-- `set_level_override` with a non-reserved name preserves the round-trip
invariant. -/
theorem roundtripInv_set_override (st : _LogService) (n : String) (L : Int)
    (hn : n ≠ "default") (h : roundtripInv st) :
    roundtripInv (st.set_level_override n L) := by
  obtain ⟨ha, hb, hc, hd⟩ := h
  refine ⟨?_, rfl, ?_, ?_⟩
  · simp only [_LogService.set_level_override, _LogService.rewrite_json]
    rw [dictGet_dictSet_ne _ _ _ _ (Ne.symm hn), gocl_overrides, gocl_default]
    exact ha
  · simp only [_LogService.set_level_override, _LogService.rewrite_json]
    rw [dictGet_dictSet_ne _ _ _ _ (Ne.symm hn), gocl_loggers_other st n _ (Ne.symm hn)]
    exact hc
  · intro m lg hl hflag
    simp only [_LogService.set_level_override, _LogService.rewrite_json] at hl ⊢
    by_cases hmn : m = n
    · subst hmn
      rw [dictGet_dictSet_self] at hl
      injection hl with hl
      subst hl
      rw [dictGet_dictSet_self]
      rfl
    · rw [dictGet_dictSet_ne _ _ _ _ hmn, gocl_loggers_other st n m hmn] at hl
      rw [dictGet_dictSet_ne _ _ _ _ hmn, gocl_overrides]
      exact hd m lg hl hflag

/-- Any sequence of calls that never overrides the reserved name preserves
the round-trip invariant. -/
theorem roundtripInv_applyOps (ops : List RegOp) (st : _LogService)
    (hops : opsOK ops = true) (h : roundtripInv st) :
    roundtripInv (st.applyOps ops) := by
  induction ops generalizing st with
  | nil => exact h
  | cons op rest ih =>
    simp only [opsOK, List.all_cons, Bool.and_eq_true] at hops
    have h1 : roundtripInv (st.applyOp op) := by
      cases op with
      | setOverride nm L =>
        have hne : nm ≠ "default" := by simpa using hops.1
        exact roundtripInv_set_override st nm L hne h
      | setDefault L => exact roundtripInv_set_default st L h
    exact ih (st.applyOp op) hops.2 h1

/-- C3 counterexample: the round-trip claim as stated fails when the
overridden name is the reserved key "default" itself — overriding "default"
at level 5 rewrites the persisted default without changing the in-memory
default (3), so the reloaded registry starts with a different default. -/
theorem claim_C3_roundtrip_counterexample :
    ¬ ((_LogService.init (some (((_LogService.init none).applyOps
          [RegOp.setOverride "default" 5]).config_file))).default_log_level
        = (((_LogService.init none).applyOps
            [RegOp.setOverride "default" 5]).default_log_level) ∧
      ∀ n lg, dictGet (((_LogService.init none).applyOps
            [RegOp.setOverride "default" 5]).loggers) n = some lg →
        lg.level_is_overridden = true →
        (((_LogService.init (some (((_LogService.init none).applyOps
            [RegOp.setOverride "default" 5]).config_file))).get_or_create_log_channel
              n).1).level = lg.level) := by
  intro h
  exact absurd h.1 (by decide)

/-- C3 (amended): for any sequence of `set_level_override` and
`set_default_log_level` calls from a fresh registry in which no override
call uses the reserved name "default", a fresh registry reloading the
persisted configuration file reproduces the same default threshold, and
`get_or_create_log_channel` on each previously overridden name reproduces
that channel threshold. -/
theorem claim_C3_roundtrip_amended (ops : List RegOp) (hops : opsOK ops = true) :
    (_LogService.init (some ((_LogService.init none).applyOps ops).config_file)).default_log_level
      = ((_LogService.init none).applyOps ops).default_log_level ∧
    ∀ n lg, dictGet ((_LogService.init none).applyOps ops).loggers n = some lg →
      lg.level_is_overridden = true →
      (((_LogService.init
          (some ((_LogService.init none).applyOps ops).config_file)).get_or_create_log_channel
            n).1).level = lg.level := by
  obtain ⟨ha, hb, hc, hd⟩ := roundtripInv_applyOps ops (_LogService.init none) hops
    roundtripInv_init
  revert ha hb hc hd
  generalize (_LogService.init none).applyOps ops = st
  intro ha hb hc hd
  constructor
  · rw [hb]
    simp [_LogService.init, ha]
  · intro n lg hl hflag
    have hov := hd n lg hl hflag
    rw [hb]
    simp [_LogService.init, ha, _LogService.get_or_create_log_channel, dictGet, hov,
      Logger.set_level, Logger.init]

/-- Witness for the amended C3 on the sequence override("net", 5) then
default(1). -/
theorem claim_C3_roundtrip_amended_witness :
    opsOK [RegOp.setOverride "net" 5, RegOp.setDefault 1] = true ∧
    ((_LogService.init (some ((_LogService.init none).applyOps
        [RegOp.setOverride "net" 5, RegOp.setDefault 1]).config_file)).default_log_level
      = ((_LogService.init none).applyOps
          [RegOp.setOverride "net" 5, RegOp.setDefault 1]).default_log_level ∧
    ∀ n lg, dictGet ((_LogService.init none).applyOps
        [RegOp.setOverride "net" 5, RegOp.setDefault 1]).loggers n = some lg →
      lg.level_is_overridden = true →
      (((_LogService.init
          (some ((_LogService.init none).applyOps
            [RegOp.setOverride "net" 5, RegOp.setDefault 1]).config_file)).get_or_create_log_channel
              n).1).level = lg.level) :=
  ⟨by decide, claim_C3_roundtrip_amended
    [RegOp.setOverride "net" 5, RegOp.setDefault 1] (by decide)⟩
